import Mathlib

/-!
Verification of the waitlist admin dashboard component
(src/src/components/AdminDashboard.tsx).

The component keeps three pieces of state (`entries`, `loading`, `error`),
fetches the waitlist from an HTTP endpoint, derives three counts from the
entries, and renders conditionally.  We embed the state, the fetch
lifecycle (`fetchWaitlist`), the derived `stats`, the role display label,
and the render's conditional structure as pure Lean functions, and prove
the specified properties about them.
-/

/-- One waitlist signup record, mirroring the `WaitlistEntry` interface. -/
structure WaitlistEntry where
  id : Nat
  name : String
  email : String
  occupation : String
  role : String
  created_at : String
deriving DecidableEq, Repr

/-- The component's state triple: the `useState` hooks
`entries`, `loading`, `error`. -/
structure DashState where
  entries : List WaitlistEntry
  loading : Bool
  error : Option String
deriving DecidableEq, Repr

/-- The initial state from the `useState` initializers:
`entries = []`, `loading = true`, `error = null`. -/
def initialState : DashState :=
  { entries := [], loading := true, error := none }

/-- Outcome of calling `response.json()`: either a parse exception with a
message, or a parsed body whose `data` field is a list of entries, or
`none` when `data` is absent or null. -/
inductive JsonParse where
  | parseError (msg : String)
  | parsed (data : Option (List WaitlistEntry))
deriving DecidableEq, Repr

/-- An HTTP response as seen by the component: a status code and the
result of parsing the JSON body. -/
structure HttpResponse where
  status : Nat
  body : JsonParse
deriving DecidableEq, Repr

/-- The fetch API's `response.ok`: status in the 2xx range. -/
def HttpResponse.ok (r : HttpResponse) : Bool :=
  200 ≤ r.status && r.status ≤ 299

/-- What one invocation of `fetch` can produce: a network exception
(the promise rejects with a message) or an HTTP response. -/
inductive FetchOutcome where
  | networkError (msg : String)
  | response (r : HttpResponse)
deriving DecidableEq, Repr

/-- Phase 1 of `fetchWaitlist`: `setLoading(true); setError(null)`. -/
def fetchStart (s : DashState) : DashState :=
  { s with loading := true, error := none }

/-- Phase 2 of `fetchWaitlist`: the try/catch/finally completion.
A non-ok response throws `the fixed message "Failed to fetch waitlist"`; a parse
exception or network exception is caught and its message stored via
`setError(err.message)`; on success `setEntries(data.data || [])`; the
finally block runs `setLoading(false)` in every branch. -/
def fetchComplete (s : DashState) (o : FetchOutcome) : DashState :=
  match o with
  | .networkError msg => { s with error := some msg, loading := false }
  | .response r =>
    if r.ok then
      match r.body with
      | .parseError msg => { s with error := some msg, loading := false }
      | .parsed d => { s with entries := d.getD [], loading := false }
    else
      { s with error := some "Failed to fetch waitlist", loading := false }

/-- One whole invocation of `fetchWaitlist` as a state transformer, given
the outcome of the network call. -/
def fetchWaitlist (s : DashState) (o : FetchOutcome) : DashState :=
  fetchComplete (fetchStart s) o

/-- `true` when the invocation ends in the catch block: a network
exception, a non-2xx response, or a JSON parse exception. -/
def FetchOutcome.isFailure : FetchOutcome → Bool
  | .networkError _ => true
  | .response r =>
    if r.ok then
      match r.body with
      | .parseError _ => true
      | .parsed _ => false
    else true

/-- `true` when the invocation reaches `setEntries`. -/
def FetchOutcome.isSuccess (o : FetchOutcome) : Bool :=
  !o.isFailure

/-- The entries stored on success: `data.data || []`.
Junk value `[]` on non-success outcomes. -/
def FetchOutcome.successEntries : FetchOutcome → List WaitlistEntry
  | .response ⟨_, .parsed d⟩ => d.getD []
  | _ => []

/-- The derived stats object computed from `entries` on every render. -/
structure Stats where
  total : Nat
  eventPlanners : Nat
  vendors : Nat
deriving DecidableEq, Repr

/-- `stats`: total count, and filtered counts for the two known roles. -/
def stats (entries : List WaitlistEntry) : Stats :=
  { total := entries.length
    eventPlanners := (entries.filter (fun e => e.role == "event-planner")).length
    vendors := (entries.filter (fun e => e.role == "vendor")).length }

/-- The role badge text in the table:
the conditional on `entry.role` yielding "Event Planner" or "Vendor". -/
def roleLabel (role : String) : String :=
  if role == "event-planner" then "Event Planner" else "Vendor"

/-- Which of the component's conditional view fragments appear in the
rendered output for a given state. -/
structure RenderOutput where
  spinner : Bool
  statsCards : Bool
  errorBanner : Bool
  entriesCard : Bool
  emptyState : Bool
  entriesTable : Bool
deriving DecidableEq, Repr

/-- The render's conditional structure: the early return of the spinner
when `loading`; otherwise the main view containing the stats cards, the
error banner guarded by `{error && ...}`, and the entries card which
branches on `entries.length === 0`. -/
def render (s : DashState) : RenderOutput :=
  if s.loading then
    { spinner := true, statsCards := false, errorBanner := false
      entriesCard := false, emptyState := false, entriesTable := false }
  else
    { spinner := false, statsCards := true, errorBanner := s.error.isSome
      entriesCard := true, emptyState := s.entries.length == 0
      entriesTable := !(s.entries.length == 0) }

/-- The spec's three-entry example response data. -/
def exampleEntries : List WaitlistEntry :=
  [ { id := 1, name := "Alice", email := "alice@example.com"
      occupation := "planner", role := "event-planner", created_at := "2024-01-01" }
  , { id := 2, name := "Bob", email := "bob@example.com"
      occupation := "caterer", role := "vendor", created_at := "2024-01-02" }
  , { id := 3, name := "Cara", email := "cara@example.com"
      occupation := "florist", role := "vendor", created_at := "2024-01-03" } ]

/-- The UI events that can trigger `fetchWaitlist`: the mount effect
(`useEffect` with an empty dependency list, which runs exactly once), and
the two buttons whose `onClick` is `fetchWaitlist`. -/
inductive UiEvent where
  | mount
  | refreshClick
  | tryAgainClick
deriving DecidableEq, Repr

/-- Number of `fetchWaitlist` invocations issued by one UI event: the
mount effect calls it once, and each button click calls it once. -/
def fetchesTriggered : UiEvent → Nat
  | .mount => 1
  | .refreshClick => 1
  | .tryAgainClick => 1

/-- Total number of fetches issued over a trace of UI events. -/
def totalFetches (trace : List UiEvent) : Nat :=
  (trace.map fetchesTriggered).sum

/-- Whether a UI event is an explicit user action (a button click). -/
def UiEvent.isUserAction : UiEvent → Bool
  | .mount => false
  | .refreshClick => true
  | .tryAgainClick => true

/-- C1: for every entries collection the derived stats count all entries,
the entries with role "event-planner", and the entries with role
"vendor" respectively; on the spec's three-entry example the stats are
total 3, eventPlanners 1, vendors 2. -/
theorem C1_stats_counts (entries : List WaitlistEntry) :
    (stats entries).total = entries.length ∧
    (stats entries).eventPlanners = entries.countP (fun e => e.role == "event-planner") ∧
    (stats entries).vendors = entries.countP (fun e => e.role == "vendor") ∧
    stats exampleEntries = { total := 3, eventPlanners := 1, vendors := 2 } := by
  refine ⟨rfl, ?_, ?_, by decide⟩ <;>
    simp [stats, List.countP_eq_length_filter]

/-- C2: every invocation of fetchWaitlist that ends in failure leaves the
state with a non-null error message, loading false, and the entries
unchanged from before the invocation. -/
theorem C2_failure_keeps_entries (s : DashState) (o : FetchOutcome)
    (h : o.isFailure = true) :
    (fetchWaitlist s o).error.isSome = true ∧
    (fetchWaitlist s o).loading = false ∧
    (fetchWaitlist s o).entries = s.entries := by
  cases o with
  | networkError msg =>
      simp [fetchWaitlist, fetchStart, fetchComplete]
  | response r =>
      cases hok : r.ok with
      | false =>
          simp [fetchWaitlist, fetchStart, fetchComplete, hok]
      | true =>
          cases hb : r.body with
          | parseError msg =>
              simp [fetchWaitlist, fetchStart, fetchComplete, hok, hb]
          | parsed d =>
              exfalso
              simp [FetchOutcome.isFailure, hok, hb] at h

theorem C2_witness :
    FetchOutcome.isFailure
      (FetchOutcome.response { status := 500, body := JsonParse.parsed none }) = true ∧
    ((fetchWaitlist { entries := exampleEntries, loading := false, error := none }
        (FetchOutcome.response { status := 500, body := JsonParse.parsed none })).error.isSome = true ∧
     (fetchWaitlist { entries := exampleEntries, loading := false, error := none }
        (FetchOutcome.response { status := 500, body := JsonParse.parsed none })).loading = false ∧
     (fetchWaitlist { entries := exampleEntries, loading := false, error := none }
        (FetchOutcome.response { status := 500, body := JsonParse.parsed none })).entries
       = exampleEntries) :=
  ⟨by decide,
   C2_failure_keeps_entries
     { entries := exampleEntries, loading := false, error := none }
     (FetchOutcome.response { status := 500, body := JsonParse.parsed none })
     (by decide)⟩

/-- C7: two invocations from the same prior state that receive non-2xx
responses produce identical resulting states, whatever the status codes
and bodies are: every non-2xx response is a uniform failure. -/
theorem C7_uniform_failure (s : DashState) (r1 r2 : HttpResponse)
    (h1 : r1.ok = false) (h2 : r2.ok = false) :
    fetchWaitlist s (FetchOutcome.response r1) = fetchWaitlist s (FetchOutcome.response r2) := by
  simp [fetchWaitlist, fetchStart, fetchComplete, h1, h2]

theorem C7_witness :
    ({ status := 500, body := JsonParse.parsed none } : HttpResponse).ok = false ∧
    ({ status := 404, body := JsonParse.parseError "not found" } : HttpResponse).ok = false ∧
    fetchWaitlist initialState
        (FetchOutcome.response { status := 500, body := JsonParse.parsed none })
      = fetchWaitlist initialState
        (FetchOutcome.response { status := 404, body := JsonParse.parseError "not found" }) :=
  ⟨by decide, by decide,
   C7_uniform_failure initialState
     { status := 500, body := JsonParse.parsed none }
     { status := 404, body := JsonParse.parseError "not found" }
     (by decide) (by decide)⟩

/-- C9: the initial state is loading with no error and no entries, so the
first render, and the render during the mount fetch, show only the
loading spinner: no error banner, no empty-state placeholder. -/
theorem C9_initial_render :
    initialState.loading = true ∧ initialState.error = none ∧
    initialState.entries = [] ∧
    render initialState =
      { spinner := true, statsCards := false, errorBanner := false
        entriesCard := false, emptyState := false, entriesTable := false } ∧
    render (fetchStart initialState) = render initialState ∧
    (render initialState).errorBanner = false ∧
    (render initialState).emptyState = false := by
  decide

/-- C10: a non-2xx response always sets the error to exactly
"Failed to fetch waitlist", independent of status and body; a network
exception or a JSON parse exception stores that exception's message. -/
theorem C10_error_messages (s : DashState) (r : HttpResponse)
    (msg pmsg : String) (h : r.ok = false) :
    (fetchWaitlist s (FetchOutcome.response r)).error = some "Failed to fetch waitlist" ∧
    (fetchWaitlist s (FetchOutcome.networkError msg)).error = some msg ∧
    (fetchWaitlist s (FetchOutcome.response
        { status := 200, body := JsonParse.parseError pmsg })).error = some pmsg := by
  refine ⟨?_, rfl, rfl⟩
  simp [fetchWaitlist, fetchStart, fetchComplete, h]

theorem C10_witness :
    ({ status := 503, body := JsonParse.parsed none } : HttpResponse).ok = false ∧
    ((fetchWaitlist initialState
        (FetchOutcome.response { status := 503, body := JsonParse.parsed none })).error
        = some "Failed to fetch waitlist" ∧
     (fetchWaitlist initialState (FetchOutcome.networkError "timeout")).error
        = some "timeout" ∧
     (fetchWaitlist initialState (FetchOutcome.response
        { status := 200, body := JsonParse.parseError "bad json" })).error
        = some "bad json") :=
  ⟨by decide,
   C10_error_messages initialState
     { status := 503, body := JsonParse.parsed none } "timeout" "bad json" (by decide)⟩

/-- C3 counterexample: in the state loading = false, error non-null, the
render shows the error banner AND the stats cards AND the entries card
simultaneously, so the three views are not mutually exclusive as claimed:
the error banner appears in addition to, not instead of, the
stats-cards-plus-table view. -/
theorem C3_counterexample :
    (render { entries := [], loading := false
              error := some "Failed to fetch waitlist" }).errorBanner = true ∧
    (render { entries := [], loading := false
              error := some "Failed to fetch waitlist" }).statsCards = true ∧
    (render { entries := [], loading := false
              error := some "Failed to fetch waitlist" }).entriesCard = true ∧
    (render { entries := [], loading := false
              error := some "Failed to fetch waitlist" }).spinner = false := by
  decide

/-- C3 amended: the spinner is shown exactly when loading is true and is
then the only view; when loading is false the stats cards and the entries
card are always shown, and the error banner is additionally shown exactly
when the error is non-null, alongside them rather than instead of them. -/
theorem C3_render_structure (s : DashState) :
    ((render s).spinner = true ↔ s.loading = true) ∧
    ((render s).spinner = true →
      (render s).statsCards = false ∧ (render s).errorBanner = false ∧
      (render s).entriesCard = false) ∧
    ((render s).spinner = false →
      (render s).statsCards = true ∧ (render s).entriesCard = true) ∧
    ((render s).errorBanner = true ↔ (s.loading = false ∧ s.error.isSome = true)) := by
  cases hl : s.loading <;> simp [render, hl]

theorem C3_render_structure_witness :
    ((render initialState).spinner = true ↔ initialState.loading = true) ∧
    ((render initialState).spinner = true →
      (render initialState).statsCards = false ∧
      (render initialState).errorBanner = false ∧
      (render initialState).entriesCard = false) ∧
    ((render initialState).spinner = false →
      (render initialState).statsCards = true ∧
      (render initialState).entriesCard = true) ∧
    ((render initialState).errorBanner = true ↔
      (initialState.loading = false ∧ initialState.error.isSome = true)) :=
  C3_render_structure initialState

/-- C4: a 2xx response with a parseable body sets entries to the body's
data field, clears the error, and ends with loading false; when the data
field is absent or null, entries becomes empty and the empty-state branch
of the entries card is rendered. -/
theorem C4_success_sets_entries (s : DashState) (status : Nat)
    (d : Option (List WaitlistEntry))
    (hok : HttpResponse.ok { status := status, body := JsonParse.parsed d } = true) :
    (fetchWaitlist s (FetchOutcome.response
        { status := status, body := JsonParse.parsed d })).entries = d.getD [] ∧
    (fetchWaitlist s (FetchOutcome.response
        { status := status, body := JsonParse.parsed d })).loading = false ∧
    (fetchWaitlist s (FetchOutcome.response
        { status := status, body := JsonParse.parsed d })).error = none ∧
    (d = none →
      (fetchWaitlist s (FetchOutcome.response
          { status := status, body := JsonParse.parsed d })).entries = [] ∧
      (render (fetchWaitlist s (FetchOutcome.response
          { status := status, body := JsonParse.parsed d }))).emptyState = true) := by
  refine ⟨?_, ?_, ?_, ?_⟩ <;>
    simp [fetchWaitlist, fetchStart, fetchComplete, render, hok]
  rintro rfl
  simp

theorem C4_witness :
    HttpResponse.ok { status := 200, body := JsonParse.parsed none } = true ∧
    ((fetchWaitlist { entries := exampleEntries, loading := false, error := none }
        (FetchOutcome.response { status := 200, body := JsonParse.parsed none })).entries
        = Option.getD none [] ∧
     (fetchWaitlist { entries := exampleEntries, loading := false, error := none }
        (FetchOutcome.response { status := 200, body := JsonParse.parsed none })).loading
        = false ∧
     (fetchWaitlist { entries := exampleEntries, loading := false, error := none }
        (FetchOutcome.response { status := 200, body := JsonParse.parsed none })).error
        = none ∧
     (none = (none : Option (List WaitlistEntry)) →
       (fetchWaitlist { entries := exampleEntries, loading := false, error := none }
          (FetchOutcome.response { status := 200, body := JsonParse.parsed none })).entries
          = [] ∧
       (render (fetchWaitlist { entries := exampleEntries, loading := false, error := none }
          (FetchOutcome.response { status := 200, body := JsonParse.parsed none }))).emptyState
          = true)) :=
  ⟨by decide,
   C4_success_sets_entries
     { entries := exampleEntries, loading := false, error := none } 200 none (by decide)⟩

/-- C5: every invocation first sets loading true and error null (clearing
a prior error), entries untouched at that point; on completion, success
or failure, loading is false; and on success the entries collection is
replaced wholesale by the response data. -/
theorem C5_fetch_lifecycle (s : DashState) (o : FetchOutcome) :
    (fetchStart s).loading = true ∧
    (fetchStart s).error = none ∧
    (fetchStart s).entries = s.entries ∧
    (fetchWaitlist s o).loading = false ∧
    (o.isSuccess = true → (fetchWaitlist s o).entries = o.successEntries) := by
  refine ⟨rfl, rfl, rfl, ?_, ?_⟩
  · cases o with
    | networkError msg => rfl
    | response r =>
        cases hok : r.ok <;>
          cases hb : r.body <;>
            simp [fetchWaitlist, fetchStart, fetchComplete, hok, hb]
  · intro hs
    cases o with
    | networkError msg => simp [FetchOutcome.isSuccess, FetchOutcome.isFailure] at hs
    | response r =>
        obtain ⟨status, body⟩ := r
        cases body with
        | parseError msg =>
            simp [FetchOutcome.isSuccess, FetchOutcome.isFailure] at hs
        | parsed d =>
            cases hok : HttpResponse.ok { status := status, body := JsonParse.parsed d } with
            | false =>
                simp [FetchOutcome.isSuccess, FetchOutcome.isFailure, hok] at hs
            | true =>
                simp [fetchWaitlist, fetchStart, fetchComplete,
                  FetchOutcome.successEntries, hok]

theorem C5_witness :
    (fetchStart { entries := [], loading := false, error := some "boom" }).loading = true ∧
    (fetchStart { entries := [], loading := false, error := some "boom" }).error = none ∧
    (fetchStart { entries := [], loading := false, error := some "boom" }).entries = [] ∧
    (fetchWaitlist { entries := [], loading := false, error := some "boom" }
        (FetchOutcome.response { status := 204, body := JsonParse.parsed (some exampleEntries) })).loading
      = false ∧
    ((FetchOutcome.response
        { status := 204, body := JsonParse.parsed (some exampleEntries) }).isSuccess = true →
      (fetchWaitlist { entries := [], loading := false, error := some "boom" }
          (FetchOutcome.response
            { status := 204, body := JsonParse.parsed (some exampleEntries) })).entries
        = (FetchOutcome.response
            { status := 204, body := JsonParse.parsed (some exampleEntries) }).successEntries) :=
  C5_fetch_lifecycle { entries := [], loading := false, error := some "boom" }
    (FetchOutcome.response { status := 204, body := JsonParse.parsed (some exampleEntries) })

/-- The two counted roles plus the unrecognized roles partition the
total entry count. -/
theorem stats_role_partition (entries : List WaitlistEntry) :
    (stats entries).eventPlanners + (stats entries).vendors +
      (entries.filter (fun e => !(e.role == "event-planner") && !(e.role == "vendor"))).length
      = (stats entries).total := by
  simp only [stats]
  induction entries with
  | nil => rfl
  | cons a t ih =>
      cases hp : a.role == "event-planner" with
      | true =>
          cases hq : a.role == "vendor" with
          | true =>
              exfalso
              rw [beq_iff_eq] at hp hq
              rw [hp] at hq
              exact absurd hq (by decide)
          | false =>
              simp [List.filter_cons, hp, hq]
              omega
      | false =>
          cases hq : a.role == "vendor" with
          | true =>
              simp [List.filter_cons, hp, hq]
              omega
          | false =>
              simp [List.filter_cons, hp, hq]
              omega

/-- An entry whose role is none of the recognized values. -/
def otherRoleEntry : WaitlistEntry :=
  { id := 4, name := "Dan", email := "dan@example.com"
    occupation := "dj", role := "dj-service", created_at := "2024-01-04" }

/-- C6: an entry whose role is neither "event-planner" nor "vendor" is
counted in total but in neither sub-count (so the two sub-counts fall
strictly short of the total), yet the table still displays it with the
"Vendor" label; the stats are purely derived from entries, so recomputing
them from the same entries yields the same result. -/
theorem C6_unrecognized_role (entries : List WaitlistEntry) (e : WaitlistEntry)
    (h1 : e ∈ entries) (h2 : e.role ≠ "event-planner") (h3 : e.role ≠ "vendor") :
    (stats entries).eventPlanners + (stats entries).vendors < (stats entries).total ∧
    e ∉ entries.filter (fun x => x.role == "event-planner") ∧
    e ∉ entries.filter (fun x => x.role == "vendor") ∧
    roleLabel e.role = "Vendor" ∧
    stats entries = stats entries := by
  refine ⟨?_, ?_, ?_, ?_, rfl⟩
  · have hmem : e ∈ entries.filter
        (fun x => !(x.role == "event-planner") && !(x.role == "vendor")) :=
      List.mem_filter.2 ⟨h1, by simp [h2, h3]⟩
    have hpos := List.length_pos_of_mem hmem
    have hpart := stats_role_partition entries
    omega
  · intro hc
    exact h2 (by simpa using (List.mem_filter.1 hc).2)
  · intro hc
    exact h3 (by simpa using (List.mem_filter.1 hc).2)
  · simp [roleLabel, h2]

theorem C6_witness :
    otherRoleEntry ∈ [otherRoleEntry] ∧
    otherRoleEntry.role ≠ "event-planner" ∧
    otherRoleEntry.role ≠ "vendor" ∧
    ((stats [otherRoleEntry]).eventPlanners + (stats [otherRoleEntry]).vendors
        < (stats [otherRoleEntry]).total ∧
     otherRoleEntry ∉ List.filter (fun x => x.role == "event-planner") [otherRoleEntry] ∧
     otherRoleEntry ∉ List.filter (fun x => x.role == "vendor") [otherRoleEntry] ∧
     roleLabel otherRoleEntry.role = "Vendor" ∧
     stats [otherRoleEntry] = stats [otherRoleEntry]) :=
  ⟨by decide, by decide, by decide,
   C6_unrecognized_role [otherRoleEntry] otherRoleEntry
     (by decide) (by decide) (by decide)⟩

/-- Every UI event triggers exactly one fetch, so the fetch count of a
trace is its length. -/
theorem totalFetches_eq_length (trace : List UiEvent) :
    totalFetches trace = trace.length := by
  induction trace with
  | nil => rfl
  | cons a t ih =>
      have ha : fetchesTriggered a = 1 := by cases a <;> rfl
      simp [totalFetches, ha] at ih ⊢
      omega

/-- C8: a trace beginning with the mount and otherwise consisting only of
explicit user actions issues exactly one fetch for the mount — so exactly
one fetch happens before any user interaction — plus exactly one fetch
per user action, and no other fetches. -/
theorem C8_mount_then_user_fetches (trace : List UiEvent)
    (h : ∀ e ∈ trace, e.isUserAction = true) :
    totalFetches [UiEvent.mount] = 1 ∧
    totalFetches (UiEvent.mount :: trace)
      = 1 + trace.countP (fun e => e.isUserAction) := by
  refine ⟨rfl, ?_⟩
  have hc : trace.countP (fun e => e.isUserAction) = trace.length :=
    List.countP_eq_length.2 (fun a ha => h a ha)
  rw [hc, totalFetches_eq_length, List.length_cons]
  omega

theorem C8_witness :
    (∀ e ∈ [UiEvent.refreshClick, UiEvent.tryAgainClick], e.isUserAction = true) ∧
    (totalFetches [UiEvent.mount] = 1 ∧
     totalFetches (UiEvent.mount :: [UiEvent.refreshClick, UiEvent.tryAgainClick])
       = 1 + List.countP (fun e => e.isUserAction)
           [UiEvent.refreshClick, UiEvent.tryAgainClick]) :=
  ⟨by decide,
   C8_mount_then_user_fetches [UiEvent.refreshClick, UiEvent.tryAgainClick] (by decide)⟩
